import Mathlib

/-!
# Verification of the Eximius coffee-production dashboard (src/app.py)

Shallow embedding of the data-retrieval and metric-derivation pipeline of
`src/app.py`.  Dates are modelled as `Int` (epoch-day ordinals, so that
`timedelta(days = n)` is subtraction of `n`); SQL `BETWEEN` is the inclusive
range test.  Numeric database cells reaching `pd.to_numeric(..., errors =
'coerce')` are modelled by `RawCell`: either a value that parses to a number
(recorded by that number, as a rational) or an unparseable value; the
missing-value marker (`NaN`) produced by the coercion is `Option.none`, and
pandas sums skip it, as `sumOpt` below does.
-/

namespace EximiusCoffee

/-- A raw value in one of the five expected-numeric columns, as delivered by
the SQL query before `pd.to_numeric(..., errors = 'coerce')` is applied:
either parseable to a number (carried as that number) or not. -/
inductive RawCell where
  | ofNum (q : ℚ)
  | unparseable
deriving DecidableEq

/-- `pd.to_numeric(col, errors = 'coerce')` on a single cell (src/app.py:160):
a parseable value is kept, an unparseable one becomes the missing-value
marker `none`; the function is total, so the fetch never raises here. -/
def to_numeric : RawCell → Option ℚ
  | .ofNum q => some q
  | .unparseable => none

/-- One row of the SQL join in `fetch_production_data` (src/app.py:126-135):
`daily_production` joined with `sku` and `machine`, before the pandas
numeric coercion. -/
structure RawRow where
  date : Int
  schedulded_cases : RawCell
  produced_cases : RawCell
  shift_start : String
  shift_end : String
  customer : String
  sku_of_product : String
  arabica : RawCell
  robusta : RawCell
  brazil : RawCell
  machine_name : String
deriving DecidableEq

/-- A fetched production record after the numeric coercion: the five numeric
columns hold `none` exactly where the raw value was unparseable. -/
structure Row where
  date : Int
  schedulded_cases : Option ℚ
  produced_cases : Option ℚ
  shift_start : String
  shift_end : String
  customer : String
  sku_of_product : String
  arabica : Option ℚ
  robusta : Option ℚ
  brazil : Option ℚ
  machine_name : String
deriving DecidableEq

/-- The per-row numeric coercion loop of src/app.py:158-160: `to_numeric`
applied to each of the five expected-numeric columns, all other columns
unchanged. -/
def coerceRow (r : RawRow) : Row :=
  { date := r.date
    schedulded_cases := to_numeric r.schedulded_cases
    produced_cases := to_numeric r.produced_cases
    shift_start := r.shift_start
    shift_end := r.shift_end
    customer := r.customer
    sku_of_product := r.sku_of_product
    arabica := to_numeric r.arabica
    robusta := to_numeric r.robusta
    brazil := to_numeric r.brazil
    machine_name := r.machine_name }

/-- Boolean `≤` on strings (via Mathlib's linear order on `String`), used to
model the SQL `ORDER BY` collation. -/
def strLeB (s t : String) : Bool := decide (s ≤ t)

/-- The `ORDER BY dp.date, machine.machine_name` comparison of
src/app.py:151: lexicographic on (date, machine_name). -/
def rowLe (a b : RawRow) : Bool :=
  decide (a.date < b.date) || (decide (a.date = b.date) && strLeB a.machine_name b.machine_name)

/-- The machine filter guard and predicate of src/app.py:140-142: the clause
`machine.machine_name = %(machine)s` is added only when `machine` is truthy
(not `None`, not the empty string) and not the sentinel `"All"`; otherwise
every row passes. -/
def machinePred : Option String → RawRow → Bool
  | none, _ => true
  | some m, r => if m = "" ∨ m = "All" then true else r.machine_name == m

/-- The customer filter guard and predicate of src/app.py:144-146, same
truthiness rule on `sku.customer`. -/
def customerPred : Option String → RawRow → Bool
  | none, _ => true
  | some c, r => if c = "" ∨ c = "All" then true else r.customer == c

/-- The `WHERE dp.date BETWEEN %(start_date)s AND %(end_date)s` clause
(src/app.py:135): SQL BETWEEN is inclusive on both ends. -/
def dateBetween (start_date end_date : Int) (r : RawRow) : Bool :=
  decide (start_date ≤ r.date) && decide (r.date ≤ end_date)

/-- `fetch_production_data` (src/app.py:113-166) over a database modelled as
the list `db` of joined rows: keep the rows in the inclusive date range that
pass the two optional equality filters, order them by (date, machine_name),
then coerce the five numeric columns.  `machine = none` models passing
Python `None` (or omitting the argument); `some s` models passing string
`s`. -/
def fetch_production_data (db : List RawRow) (start_date end_date : Int)
    (machine customer : Option String) : List Row :=
  let rows := db.filter fun r =>
    dateBetween start_date end_date r && machinePred machine r && customerPred customer r
  (rows.mergeSort rowLe).map coerceRow

/-- `sorted(...)` on a list of strings with duplicates removed, modelling
`sorted(df[col].dropna().unique())` in src/app.py:105-106.  The columns
`machine_name` and `customer` are modelled as non-null strings, so
`dropna()` is the identity here. -/
def sortedUnique (l : List String) : List String := l.dedup.mergeSort strLeB

/-- `fetch_distinct_values` (src/app.py:83-110).  Note the bug in the source:
the query at src/app.py:104 is executed with `params = {'start_date':
start_selected, 'end_date': end_selected}` — the module-level globals — so
the function's own arguments `start_date`/`end_date` are ignored.  The
globals are the first two explicit arguments here (`start_selected`,
`end_selected`); the function's formal arguments come last and do not occur
in the body, exactly as in the source. -/
def fetch_distinct_values (start_selected end_selected : Int) (db : List RawRow)
    (start_date end_date : Int) : List String × List String :=
  let rows := db.filter fun r =>
    decide (start_selected ≤ r.date) && decide (r.date ≤ end_selected)
  (sortedUnique (rows.map RawRow.machine_name), sortedUnique (rows.map RawRow.customer))

/-- Pandas `Series.sum()` over an extracted column with missing-value
markers: `NaN` entries are skipped (pandas `skipna` default), an all-missing
or empty column sums to `0`. -/
def sumOpt {α : Type} (f : α → Option ℚ) (l : List α) : ℚ := (l.filterMap f).sum

/-- Float multiplication with `NaN` propagation, for the per-row products
`data["produced_cases"] * data[origin]` of src/app.py:246-248: the product
is missing iff either factor is. -/
def mulOpt : Option ℚ → Option ℚ → Option ℚ
  | some a, some b => some (a * b)
  | _, _ => none

/-- A fetched row together with the three derived per-row columns
`total_arabica`, `total_robusta`, `total_brazil` added by src/app.py:246-248.
Exactly these three columns are added; all fetched columns live unchanged in
`base`. -/
structure DerivedRow where
  base : Row
  total_arabica : Option ℚ
  total_robusta : Option ℚ
  total_brazil : Option ℚ
deriving DecidableEq

/-- The column-adding step of src/app.py:246-248: one derived row per fetched
row, in the same order. -/
def deriveRows (data : List Row) : List DerivedRow :=
  data.map fun r =>
    { base := r
      total_arabica := mulOpt r.produced_cases r.arabica
      total_robusta := mulOpt r.produced_cases r.robusta
      total_brazil := mulOpt r.produced_cases r.brazil }

/-- The headline aggregates of src/app.py:242-255. -/
structure Metrics where
  total_produced : ℚ
  total_scheduled : ℚ
  total_arabica : ℚ
  total_robusta : ℚ
  total_brazil : ℚ
  total_coffee : ℚ
  production_efficiency : ℚ
deriving DecidableEq

/-- The aggregate computation of src/app.py:242-255 on a (non-empty, by the
guard src/app.py:241) fetched record set: column sums, `total_coffee` as the
sum of the three origin aggregates, and `production_efficiency` guarded by
`total_scheduled > 0`. -/
def computeMetrics (data : List Row) : Metrics :=
  let total_produced := sumOpt Row.produced_cases data
  let total_scheduled := sumOpt Row.schedulded_cases data
  let derived := deriveRows data
  let total_arabica := sumOpt DerivedRow.total_arabica derived
  let total_robusta := sumOpt DerivedRow.total_robusta derived
  let total_brazil := sumOpt DerivedRow.total_brazil derived
  let total_coffee := total_arabica + total_robusta + total_brazil
  let production_efficiency :=
    if total_scheduled > 0 then total_produced / total_scheduled * 100 else 0
  { total_produced := total_produced
    total_scheduled := total_scheduled
    total_arabica := total_arabica
    total_robusta := total_robusta
    total_brazil := total_brazil
    total_coffee := total_coffee
    production_efficiency := production_efficiency }

/-- What one render pass emits past the `if not data.empty:` guard of
src/app.py:241 and its `else` branch src/app.py:337-338: either the computed
metrics (notice not shown) or the "no data available" warning with no
metrics computed. -/
structure RenderOutcome where
  metrics : Option Metrics
  noDataNotice : Bool
deriving DecidableEq

/-- The top-level branch of src/app.py:241 and src/app.py:337-338: an empty
fetched record set short-circuits every aggregate computation and shows the
no-data warning; a non-empty one computes the metrics and shows no
warning. -/
def renderDashboard (data : List Row) : RenderOutcome :=
  if data.isEmpty then { metrics := none, noDataNotice := true }
  else { metrics := some (computeMetrics data), noDataNotice := false }

/-- The distinct group keys of `data.groupby(key)` (src/app.py:287, 292, 299,
307): exactly the distinct key values present in the data.  Pandas presents
the groups sorted by key; no claim here depends on the presentation order,
so first-occurrence order is used. -/
def groupKeys {κ : Type} [DecidableEq κ] (key : DerivedRow → κ) (data : List DerivedRow) :
    List κ := (data.map key).dedup

/-- The group aggregate `data.groupby(key)[col].sum()` at one key: the
pandas sum (missing values skipped) of the column over the rows with that
key. -/
def groupSum {κ : Type} [DecidableEq κ] (key : DerivedRow → κ) (val : DerivedRow → Option ℚ)
    (data : List DerivedRow) (k : κ) : ℚ :=
  sumOpt val (data.filter fun r => key r = k)

/-! ## CSV export (src/app.py:315-321) -/

/-- One CSV cell value before string rendering: a date, a string column, or
a numeric column (missing = pandas `NaN`, rendered empty). -/
inductive Cell where
  | ofDate (d : Int)
  | ofStr (s : String)
  | ofNum (q : Option ℚ)
deriving DecidableEq

/-- The columns of the fetched record set, in SELECT order
(src/app.py:127-131). -/
def fetchedColumns : List String :=
  ["date", "schedulded_cases", "produced_cases", "shift_start", "shift_end",
   "customer", "sku_of_product", "arabica", "robusta", "brazil", "machine_name"]

/-- The three derived per-row columns appended by src/app.py:246-248, in
insertion order. -/
def derivedColumns : List String := ["total_arabica", "total_robusta", "total_brazil"]

/-- The header row of `data.to_csv(index=False)`: every fetched column
followed by the three derived columns. -/
def csvColumns : List String := fetchedColumns ++ derivedColumns

/-- The cell values of one data row of the CSV, in `csvColumns` order. -/
def rowCells (r : DerivedRow) : List Cell :=
  [.ofDate r.base.date, .ofNum r.base.schedulded_cases, .ofNum r.base.produced_cases,
   .ofStr r.base.shift_start, .ofStr r.base.shift_end, .ofStr r.base.customer,
   .ofStr r.base.sku_of_product, .ofNum r.base.arabica, .ofNum r.base.robusta,
   .ofNum r.base.brazil, .ofStr r.base.machine_name,
   .ofNum r.total_arabica, .ofNum r.total_robusta, .ofNum r.total_brazil]

/-- Rendering of one cell to CSV text: a missing numeric value prints as the
empty field, as pandas `to_csv` prints `NaN`.  (Exact decimal formatting of
floats is outside the model; a rational prints exactly.) -/
def renderCell : Cell → String
  | .ofDate d => toString d
  | .ofStr s => s
  | .ofNum none => ""
  | .ofNum (some q) => toString q

/-- One line of the CSV document. -/
def csvLine (cells : List Cell) : String := String.intercalate "," (cells.map renderCell)

/-- The lines of `data.to_csv(index=False)` (src/app.py:315): the header row
followed by one line per record, in record order. -/
def csvLines (rows : List DerivedRow) : List String :=
  csvLine (csvColumns.map Cell.ofStr) :: rows.map (fun r => csvLine (rowCells r))

/-- `data.to_csv(index=False)` (src/app.py:315): the lines joined with the
line terminator. -/
def to_csv (rows : List DerivedRow) : String :=
  String.intercalate "\n" (csvLines rows) ++ "\n"

/-- `data.to_csv(index=False).encode('utf-8')` (src/app.py:315): the bytes
handed to the download button are the UTF-8 encoding of the CSV text. -/
def csvDownloadBytes (rows : List DerivedRow) : ByteArray := (to_csv rows).toUTF8

/-! ## Date-filter resolution (src/app.py:184-215) -/

/-- The current date as seen by the sidebar code: its epoch-day ordinal and
its day-of-month (1-based), so that `today - timedelta(days = n)` is
`days - n` and `today.replace(day = 1)` is `days - (dom - 1)`. -/
structure Today where
  days : Int
  dom : Int
deriving DecidableEq

/-- The four options of the date-range selectbox (src/app.py:188-191). -/
inductive DateChoice where
  | last7
  | last30
  | thisMonth
  | custom
deriving DecidableEq

/-- The date-filter resolution of src/app.py:193-215, a pure function of the
current date and the selection.  `sel` models what `st.date_input` returned
for the Custom-Range branch: a list of the selected dates (`[a, b]` is the
complete two-ended tuple; a single date or an incomplete selection is any
other shape).  The widget's `min_value`/`max_value` (src/app.py:208-209)
constrain every selected date to `[today - 365, today]`. -/
def resolveRange (today : Today) (choice : DateChoice) (sel : List Int) : Int × Int :=
  match choice with
  | .last7 => (today.days - 7, today.days)
  | .last30 => (today.days - 30, today.days)
  | .thisMonth => (today.days - (today.dom - 1), today.days)
  | .custom =>
    match sel with
    | [a, b] => (a, b)
    | _ => (today.days - 30, today.days)

/-! ## Concrete sample data (for witnesses and counterexamples) -/

/-- A sample joined database row: dated day 10, machine `"M1"`, customer
`"CustA"`. -/
def cexRow : RawRow :=
  { date := 10, schedulded_cases := .ofNum 5, produced_cases := .ofNum 4,
    shift_start := "06:00", shift_end := "14:00", customer := "CustA",
    sku_of_product := "SKU1", arabica := .ofNum 2, robusta := .ofNum 1,
    brazil := .ofNum 1, machine_name := "M1" }

/-- First record of the worked example in the spec: produced 100 cases,
origin fractions 0.5 / 0.3 / 0.1. -/
def specRow1 : Row :=
  { date := 0, schedulded_cases := some 100, produced_cases := some 100,
    shift_start := "06:00", shift_end := "14:00", customer := "CustA",
    sku_of_product := "S1", arabica := some (1/2), robusta := some (3/10),
    brazil := some (1/10), machine_name := "M1" }

/-- Second record of the worked example in the spec: produced 50 cases,
origin fractions 0.4 / 0.2 / 0.2. -/
def specRow2 : Row :=
  { date := 1, schedulded_cases := some 50, produced_cases := some 50,
    shift_start := "06:00", shift_end := "14:00", customer := "CustB",
    sku_of_product := "S2", arabica := some (2/5), robusta := some (1/5),
    brazil := some (1/5), machine_name := "M2" }

/-- The spec's worked example record set. -/
def specExampleRows : List Row := [specRow1, specRow2]

/-- A record set whose scheduled total is 0 while 500 cases were produced
(the spec's zero-schedule example). -/
def zeroSchedRows : List Row :=
  [{ date := 0, schedulded_cases := some 0, produced_cases := some 500,
     shift_start := "06:00", shift_end := "14:00", customer := "CustA",
     sku_of_product := "S1", arabica := some 1, robusta := some 0,
     brazil := some 0, machine_name := "M1" }]

/-! ## Helper lemmas -/

/-- Splitting a pandas column sum along a Boolean predicate. -/
theorem sumOpt_filter_not_split {α : Type} (f : α → Option ℚ) (p : α → Bool) (l : List α) :
    sumOpt f (l.filter p) + sumOpt f (l.filter fun a => !(p a)) = sumOpt f l := by
  induction l with
  | nil => simp [sumOpt]
  | cons a l ih =>
    cases hp : p a <;>
      cases hf : f a <;>
        simp [List.filter_cons, hp, sumOpt, List.filterMap_cons, hf] at ih ⊢ <;>
      linarith [ih]

/-- Summing the group sums over any duplicate-free key list covering the
data yields the whole-column sum. -/
theorem sum_groupSum_cover {κ : Type} [DecidableEq κ] (key : DerivedRow → κ)
    (val : DerivedRow → Option ℚ) :
    ∀ (keys : List κ) (data : List DerivedRow), keys.Nodup →
      (∀ r ∈ data, key r ∈ keys) →
      (keys.map (groupSum key val data)).sum = sumOpt val data := by
  intro keys
  induction keys with
  | nil =>
    intro data _ hcov
    have hd : data = [] := by
      cases data with
      | nil => rfl
      | cons a t => exact absurd (hcov a (List.mem_cons_self a t)) (List.not_mem_nil _)
    simp [hd, sumOpt]
  | cons k ks ih =>
    intro data hnd hcov
    have hk : k ∉ ks := (List.nodup_cons.mp hnd).1
    have hks : ks.Nodup := (List.nodup_cons.mp hnd).2
    have hcov2 : ∀ r ∈ data.filter (fun r => !(decide (key r = k))), key r ∈ ks := by
      intro r hr
      have hmem := (List.mem_filter.mp hr).1
      have hne : ¬ key r = k := by
        have := (List.mem_filter.mp hr).2
        simpa using this
      rcases List.mem_cons.mp (hcov r hmem) with h | h
      · exact absurd h hne
      · exact h
    have heq : ∀ k2 ∈ ks, groupSum key val data k2
        = groupSum key val (data.filter fun r => !(decide (key r = k))) k2 := by
      intro k2 hk2
      have hkne : k2 ≠ k := fun h => hk (h ▸ hk2)
      unfold groupSum
      congr 1
      rw [List.filter_filter]
      apply List.filter_congr
      intro r _
      by_cases h : key r = k2
      · have hrk : ¬ key r = k := by
          intro hc
          apply hkne
          rw [← h, hc]
        simp [h, hrk, hkne]
      · simp [h]
    have step : (ks.map (groupSum key val data)).sum
        = sumOpt val (data.filter fun r => !(decide (key r = k))) := by
      rw [List.map_congr_left heq]
      exact ih _ hks hcov2
    have hhead : groupSum key val data k = sumOpt val (data.filter fun r => decide (key r = k)) := rfl
    calc ((k :: ks).map (groupSum key val data)).sum
        = groupSum key val data k + (ks.map (groupSum key val data)).sum := by simp
      _ = sumOpt val (data.filter fun r => decide (key r = k))
            + sumOpt val (data.filter fun r => !(decide (key r = k))) := by rw [hhead, step]
      _ = sumOpt val data := sumOpt_filter_not_split val _ data

/-- The group sums over the keys of a grouping add up to the whole-column
sum. -/
theorem groupSum_partition {κ : Type} [DecidableEq κ] (key : DerivedRow → κ)
    (val : DerivedRow → Option ℚ) (data : List DerivedRow) :
    ((groupKeys key data).map (groupSum key val data)).sum = sumOpt val data := by
  apply sum_groupSum_cover key val _ data (List.nodup_dedup _)
  intro r hr
  exact List.mem_dedup.mpr (List.mem_map_of_mem key hr)

/-- The keys of a grouping are exactly the distinct key values present. -/
theorem mem_groupKeys {κ : Type} [DecidableEq κ] (key : DerivedRow → κ)
    (data : List DerivedRow) (k : κ) :
    k ∈ groupKeys key data ↔ ∃ r ∈ data, key r = k := by
  simp [groupKeys, List.mem_dedup, List.mem_map]

/-- Every row returned by `fetch_production_data` is the coercion of a
database row that passed the date-range test and both filter predicates. -/
theorem mem_fetch {db : List RawRow} {s e : Int} {m c : Option String} {r : Row}
    (hr : r ∈ fetch_production_data db s e m c) :
    ∃ raw ∈ db, coerceRow raw = r ∧ dateBetween s e raw = true
      ∧ machinePred m raw = true ∧ customerPred c raw = true := by
  simp only [fetch_production_data] at hr
  rcases List.mem_map.mp hr with ⟨raw, hmem, hcoe⟩
  have hfil := List.mem_mergeSort.mp hmem
  have h1 := (List.mem_filter.mp hfil).1
  have h2 := (List.mem_filter.mp hfil).2
  simp only [Bool.and_eq_true] at h2
  exact ⟨raw, h1, hcoe, h2.1.1, h2.1.2, h2.2⟩

/-! ## Claim theorems -/

/-- C1: for every fetched record set, `production_efficiency` equals
`total_produced / total_scheduled * 100` whenever the guard
`total_scheduled > 0` holds, and equals 0 whenever `total_scheduled = 0`,
for any value of `total_produced`; the division is never performed when the
guard fails (src/app.py:255). -/
theorem production_efficiency_guarded (data : List Row) :
    ((computeMetrics data).total_scheduled > 0 →
      (computeMetrics data).production_efficiency
        = (computeMetrics data).total_produced / (computeMetrics data).total_scheduled * 100)
  ∧ ((computeMetrics data).total_scheduled = 0 →
      (computeMetrics data).production_efficiency = 0) := by
  constructor
  · intro h
    simp only [computeMetrics] at h ⊢
    rw [if_pos h]
  · intro h
    simp only [computeMetrics] at h ⊢
    rw [h]
    simp

/-- Witness for C1, at the spec's worked examples: the efficiency formula on
a record set with positive scheduled total, and efficiency 0 on the record
set with scheduled total 0 and 500 produced cases. -/
theorem production_efficiency_guarded_witness :
    (computeMetrics specExampleRows).production_efficiency
      = (computeMetrics specExampleRows).total_produced
          / (computeMetrics specExampleRows).total_scheduled * 100
  ∧ (computeMetrics zeroSchedRows).production_efficiency = 0 :=
  ⟨(production_efficiency_guarded specExampleRows).1 (by
      norm_num [computeMetrics, sumOpt, specExampleRows, specRow1, specRow2,
        List.filterMap_cons, List.filterMap_nil]),
   (production_efficiency_guarded zeroSchedRows).2 (by
      norm_num [computeMetrics, sumOpt, zeroSchedRows,
        List.filterMap_cons, List.filterMap_nil])⟩

/-- C2: for every non-empty filtered record set, `total_coffee` equals
`total_arabica + total_robusta + total_brazil`, where each origin aggregate
is the sum over records of `produced_cases` times that record's origin
fraction (src/app.py:246-252). -/
theorem total_coffee_decomposition (data : List Row) (h : data ≠ []) :
    (computeMetrics data).total_coffee
      = (computeMetrics data).total_arabica + (computeMetrics data).total_robusta
        + (computeMetrics data).total_brazil
  ∧ (computeMetrics data).total_arabica
      = sumOpt (fun r => mulOpt r.produced_cases r.arabica) data
  ∧ (computeMetrics data).total_robusta
      = sumOpt (fun r => mulOpt r.produced_cases r.robusta) data
  ∧ (computeMetrics data).total_brazil
      = sumOpt (fun r => mulOpt r.produced_cases r.brazil) data := by
  refine ⟨rfl, ?_, ?_, ?_⟩ <;>
  · simp only [computeMetrics, deriveRows, sumOpt, List.filterMap_map]
    rfl

/-- Witness for C2, at the spec's worked two-record example. -/
theorem total_coffee_decomposition_witness :
    (computeMetrics specExampleRows).total_coffee
      = (computeMetrics specExampleRows).total_arabica
        + (computeMetrics specExampleRows).total_robusta
        + (computeMetrics specExampleRows).total_brazil :=
  (total_coffee_decomposition specExampleRows (List.cons_ne_nil _ _)).1

/-- C5: for every filter selection whose fetched record set is empty, no
aggregate computation is performed and the no-data notice is signaled; for
every non-empty set the notice is not signaled and the metrics are computed
(src/app.py:241, 337-338). -/
theorem empty_data_guard (data : List Row) :
    (data = [] → renderDashboard data = { metrics := none, noDataNotice := true })
  ∧ (data ≠ [] → renderDashboard data
      = { metrics := some (computeMetrics data), noDataNotice := false }) := by
  constructor
  · rintro rfl
    rfl
  · intro h
    have he : data.isEmpty = false := by
      cases data with
      | nil => exact absurd rfl h
      | cons a t => rfl
    simp [renderDashboard, he]

/-- Witness for C5: the empty record set yields only the notice; the spec's
worked example record set yields the metrics and no notice. -/
theorem empty_data_guard_witness :
    renderDashboard [] = { metrics := none, noDataNotice := true }
  ∧ renderDashboard specExampleRows
      = { metrics := some (computeMetrics specExampleRows), noDataNotice := false } :=
  ⟨(empty_data_guard []).1 rfl,
   (empty_data_guard specExampleRows).2 (List.cons_ne_nil _ _)⟩

/-- C8: for every fetched row and each of the five expected-numeric columns,
an unparseable value is coerced to the missing-value marker and the fetch as
a whole does not raise because of it (every returned row is the total
coercion of a database row); parseable values are coerced unchanged in value
(src/app.py:157-160). -/
theorem numeric_coercion_total (db : List RawRow) (s e : Int) (m c : Option String) :
    (∀ r ∈ fetch_production_data db s e m c, ∃ raw ∈ db, r = coerceRow raw)
  ∧ (∀ cell : RawCell,
      (cell = .unparseable → to_numeric cell = none)
      ∧ ∀ q : ℚ, cell = .ofNum q → to_numeric cell = some q)
  ∧ (∀ raw : RawRow,
      (coerceRow raw).schedulded_cases = to_numeric raw.schedulded_cases
      ∧ (coerceRow raw).produced_cases = to_numeric raw.produced_cases
      ∧ (coerceRow raw).arabica = to_numeric raw.arabica
      ∧ (coerceRow raw).robusta = to_numeric raw.robusta
      ∧ (coerceRow raw).brazil = to_numeric raw.brazil) := by
  refine ⟨?_, ?_, ?_⟩
  · intro r hr
    rcases mem_fetch hr with ⟨raw, hdb, hcoe, -, -, -⟩
    exact ⟨raw, hdb, hcoe.symm⟩
  · intro cell
    constructor
    · rintro rfl
      rfl
    · intro q hq
      rw [hq]
      rfl
  · intro raw
    exact ⟨rfl, rfl, rfl, rfl, rfl⟩

/-- Witness for C8: an unparseable cell becomes the missing-value marker. -/
theorem numeric_coercion_total_witness :
    to_numeric RawCell.unparseable = none :=
  ((numeric_coercion_total [] 0 0 none none).2.1 RawCell.unparseable).1 rfl

/-- C3 counterexample: the machine name `""` is distinct from `"All"`, yet
`fetch_production_data` with `machine = ""` does not return only records
with `machine_name = ""` — the guard `if machine and machine != "All"`
(src/app.py:140) also skips the filter for the falsy empty string, so a
record with `machine_name = "M1"` is returned. -/
theorem equality_filters_apply_cex :
    (("" : String) ≠ "All")
  ∧ ¬ (∀ r ∈ fetch_production_data [cexRow] 0 100 (some "") none, r.machine_name = "") := by
  constructor
  · decide
  · intro hall
    have hfe : fetch_production_data [cexRow] 0 100 (some "") none = [coerceRow cexRow] := by
      simp [fetch_production_data, dateBetween, machinePred, customerPred, cexRow, coerceRow]
    have := hall (coerceRow cexRow) (by rw [hfe]; exact List.mem_singleton_self _)
    simp [coerceRow, cexRow] at this

/-- C3 (amended): for every machine name `M` with `M ≠ "All"` and `M ≠ ""`
and customer `C` with `C ≠ "All"` and `C ≠ ""`, fetching with `machine = M`
returns only records with `machine_name = M`, fetching with `customer = C`
returns only records with `customer = C`, and passing `"All"` for a
dimension returns the set unfiltered on that dimension
(src/app.py:137-151). -/
theorem equality_filters_apply (db : List RawRow) (s e : Int) (M C : String)
    (mf cf : Option String)
    (hM1 : M ≠ "All") (hM2 : M ≠ "") (hC1 : C ≠ "All") (hC2 : C ≠ "") :
    (∀ r ∈ fetch_production_data db s e (some M) cf, r.machine_name = M)
  ∧ (∀ r ∈ fetch_production_data db s e mf (some C), r.customer = C)
  ∧ fetch_production_data db s e (some "All") cf = fetch_production_data db s e none cf
  ∧ fetch_production_data db s e mf (some "All") = fetch_production_data db s e mf none := by
  refine ⟨?_, ?_, ?_, ?_⟩
  · intro r hr
    rcases mem_fetch hr with ⟨raw, -, hcoe, -, hm, -⟩
    have hm2 : raw.machine_name = M := by simpa [machinePred, hM1, hM2] using hm
    rw [← hcoe]
    exact hm2
  · intro r hr
    rcases mem_fetch hr with ⟨raw, -, hcoe, -, -, hc⟩
    have hc2 : raw.customer = C := by simpa [customerPred, hC1, hC2] using hc
    rw [← hcoe]
    exact hc2
  · rfl
  · rfl

/-- Witness for C3 (amended): the sample database fetched with
`machine = "M1"` yields only records of machine `"M1"`; in particular the
returned coercion of the sample row has that machine name. -/
theorem equality_filters_apply_witness :
    (coerceRow cexRow).machine_name = "M1" :=
  (equality_filters_apply [cexRow] 0 100 "M1" "CustA" none none
      (by decide) (by decide) (by decide) (by decide)).1
    (coerceRow cexRow)
    (by
      simp [fetch_production_data, dateBetween, machinePred, customerPred, cexRow, coerceRow])

/-- C4: `fetch_distinct_values` is claimed to restrict the queried join to
the date range given by its arguments; the code instead runs the query with
the module-level globals (src/app.py:104).  At the concrete input below the
arguments select the range [20, 30], which contains no database row, yet
both distinct-value sets come back non-empty because the globals select
[0, 100]. -/
theorem fetch_distinct_ignores_arguments :
    fetch_distinct_values 0 100 [cexRow] 20 30 = (["M1"], ["CustA"])
  ∧ [cexRow].filter (dateBetween 20 30) = [] := by
  constructor
  · simp [fetch_distinct_values, sortedUnique, cexRow]
  · simp [dateBetween, cexRow]

/-- C10: for every date range, passing `machine = None` or `machine = ""`
(and likewise for `customer`) returns the same result as passing `"All"`:
the guard `if machine and machine != "All"` (src/app.py:140, 144) skips the
equality filter for every falsy value, not only for the sentinel. -/
theorem falsy_filter_skipped (db : List RawRow) (s e : Int) (m c : Option String) :
    fetch_production_data db s e none c = fetch_production_data db s e (some "All") c
  ∧ fetch_production_data db s e (some "") c = fetch_production_data db s e (some "All") c
  ∧ fetch_production_data db s e m none = fetch_production_data db s e m (some "All")
  ∧ fetch_production_data db s e m (some "") = fetch_production_data db s e m (some "All") :=
  ⟨rfl, rfl, rfl, rfl⟩

/-- C6: each grouped aggregate of src/app.py:287, 292, 299, 307 —
produced/scheduled cases per date, the three origin weights per date,
produced cases per machine, produced cases per customer — partitions the
corresponding whole-set sum (the group sums add up to the overall sum), and
the group keys are exactly the distinct keys present in the set, with no
zero-fill for absent keys. -/
theorem grouped_sums_partition (data : List DerivedRow) :
    ((groupKeys (fun r => r.base.date) data).map
        (groupSum (fun r => r.base.date) (fun r => r.base.produced_cases) data)).sum
      = sumOpt (fun r => r.base.produced_cases) data
  ∧ ((groupKeys (fun r => r.base.date) data).map
        (groupSum (fun r => r.base.date) (fun r => r.base.schedulded_cases) data)).sum
      = sumOpt (fun r => r.base.schedulded_cases) data
  ∧ ((groupKeys (fun r => r.base.date) data).map
        (groupSum (fun r => r.base.date) DerivedRow.total_arabica data)).sum
      = sumOpt DerivedRow.total_arabica data
  ∧ ((groupKeys (fun r => r.base.date) data).map
        (groupSum (fun r => r.base.date) DerivedRow.total_robusta data)).sum
      = sumOpt DerivedRow.total_robusta data
  ∧ ((groupKeys (fun r => r.base.date) data).map
        (groupSum (fun r => r.base.date) DerivedRow.total_brazil data)).sum
      = sumOpt DerivedRow.total_brazil data
  ∧ ((groupKeys (fun r => r.base.machine_name) data).map
        (groupSum (fun r => r.base.machine_name) (fun r => r.base.produced_cases) data)).sum
      = sumOpt (fun r => r.base.produced_cases) data
  ∧ ((groupKeys (fun r => r.base.customer) data).map
        (groupSum (fun r => r.base.customer) (fun r => r.base.produced_cases) data)).sum
      = sumOpt (fun r => r.base.produced_cases) data
  ∧ (∀ d : Int, d ∈ groupKeys (fun r => r.base.date) data ↔ ∃ r ∈ data, r.base.date = d)
  ∧ (∀ m : String,
      m ∈ groupKeys (fun r => r.base.machine_name) data ↔ ∃ r ∈ data, r.base.machine_name = m)
  ∧ (∀ c : String,
      c ∈ groupKeys (fun r => r.base.customer) data ↔ ∃ r ∈ data, r.base.customer = c) :=
  ⟨groupSum_partition _ _ data, groupSum_partition _ _ data, groupSum_partition _ _ data,
   groupSum_partition _ _ data, groupSum_partition _ _ data, groupSum_partition _ _ data,
   groupSum_partition _ _ data, mem_groupKeys _ data, mem_groupKeys _ data, mem_groupKeys _ data⟩

/-- C7: the "Custom Range" option yields the user-supplied date pair when it
is a complete two-ended range and otherwise falls back to the Last-30-Days
default, and under the widget bounds of src/app.py:208-209 both ends of the
result lie in [today - 365, today]; the mapping `resolveRange` is a pure
function of the current date and the selection (src/app.py:204-215). -/
theorem custom_range_resolution (today : Today) (sel : List Int)
    (hsel : ∀ d ∈ sel, today.days - 365 ≤ d ∧ d ≤ today.days) :
    (∀ a b : Int, sel = [a, b] → resolveRange today .custom sel = (a, b))
  ∧ ((∀ a b : Int, sel ≠ [a, b]) →
      resolveRange today .custom sel = (today.days - 30, today.days))
  ∧ today.days - 365 ≤ (resolveRange today .custom sel).1
  ∧ (resolveRange today .custom sel).1 ≤ today.days
  ∧ today.days - 365 ≤ (resolveRange today .custom sel).2
  ∧ (resolveRange today .custom sel).2 ≤ today.days := by
  rcases sel with - | ⟨a, - | ⟨b, - | ⟨c, t⟩⟩⟩
  · refine ⟨?_, fun _ => rfl, ?_, ?_, ?_, ?_⟩ <;> simp [resolveRange] <;> omega
  · refine ⟨?_, fun _ => rfl, ?_, ?_, ?_, ?_⟩ <;> simp [resolveRange] <;> omega
  · have ha := hsel a (by simp)
    have hb := hsel b (by simp)
    refine ⟨?_, ?_, ?_, ?_, ?_, ?_⟩
    · intro a2 b2 hab
      injection hab with h1 h2
      injection h2 with h2 h3
      subst h1
      subst h2
      rfl
    · intro hno
      exact absurd rfl (hno a b)
    · exact ha.1
    · exact ha.2
    · exact hb.1
    · exact hb.2
  · refine ⟨?_, fun _ => rfl, ?_, ?_, ?_, ?_⟩
    · intro a2 b2 hab
      simp at hab
    all_goals simp [resolveRange] <;> omega

/-- Witness for C7: today at epoch day 1000, a complete custom selection
[900, 950] inside the widget bounds resolves to exactly that pair. -/
theorem custom_range_resolution_witness :
    resolveRange { days := 1000, dom := 15 } .custom [900, 950] = (900, 950) :=
  (custom_range_resolution { days := 1000, dom := 15 } [900, 950] (by decide)).1
    900 950 rfl

/-- C9: on every non-empty fetched record set, metric derivation adds
exactly the three per-row columns and leaves every fetched column and the
row order unchanged, and the CSV export has a header row listing all
fetched columns plus the three derived ones, one line per record in order,
UTF-8 encoded (src/app.py:246-248, 315-321). -/
theorem derive_and_csv_frame (data : List Row) (h : data ≠ []) :
    (deriveRows data).map DerivedRow.base = data
  ∧ csvColumns = fetchedColumns ++ derivedColumns
  ∧ (∀ r : DerivedRow, (rowCells r).length = csvColumns.length)
  ∧ csvLines (deriveRows data)
      = csvLine (csvColumns.map Cell.ofStr) :: (deriveRows data).map (fun r => csvLine (rowCells r))
  ∧ (csvLines (deriveRows data)).length = data.length + 1
  ∧ csvDownloadBytes (deriveRows data) = (to_csv (deriveRows data)).toUTF8 := by
  refine ⟨?_, rfl, fun r => rfl, rfl, ?_, rfl⟩
  · simp only [deriveRows, List.map_map]
    have hcomp : (DerivedRow.base ∘ fun r : Row =>
        ({ base := r, total_arabica := mulOpt r.produced_cases r.arabica,
           total_robusta := mulOpt r.produced_cases r.robusta,
           total_brazil := mulOpt r.produced_cases r.brazil } : DerivedRow)) = id := rfl
    rw [hcomp, List.map_id]
  · simp [csvLines, deriveRows]

/-- Witness for C9: derivation on the spec's worked example preserves the
fetched columns and the row order. -/
theorem derive_and_csv_frame_witness :
    (deriveRows specExampleRows).map DerivedRow.base = specExampleRows :=
  (derive_and_csv_frame specExampleRows (List.cons_ne_nil _ _)).1

end EximiusCoffee
